import Mathlib

/-!
Verification development for the GAN training notebook
(src/imageprocessinggans.ipynb).

The notebook delegates all numerical work (network forward passes,
automatic differentiation, optimizer updates, random sampling) to the
TensorFlow/Keras and NumPy libraries.  The embedding therefore keeps those
library primitives abstract, collected in a record of operations
(`GanOps`), and translates the notebook's own control flow (`train_step`,
`train_gan`, `generate_and_display_images`) faithfully over those
primitives.  The discriminator architecture (`build_discriminator`) and
the generator's output shape are additionally embedded concretely where a
claim depends on them.
-/

namespace GanNotebook

/-- Mutable training state: the two networks' trainable parameters and the
two Adam optimizer states.  In the notebook these live as module-level
globals (`generator`, `discriminator`, `generator_optimizer`,
`discriminator_optimizer`); here the state is passed explicitly. -/
structure GanState (P Q SP SQ : Type) where
  genP : P
  discP : Q
  genOpt : SP
  discOpt : SQ
deriving DecidableEq

/-- The library primitives used by the notebook, kept abstract.
Type parameters: `P`/`Q` generator/discriminator trainable parameters,
`SP`/`SQ` the two optimizer states, `Nz` a latent noise batch,
`Img` a single sample (image), `S` a per-sample scalar (score or loss),
`GP`/`GQ` gradients, `RNG` the random-number-generator state. -/
structure GanOps (P Q SP SQ Nz Img S GP GQ RNG : Type) where
  /-- tf.random.normal of shape given by the batch size and latent dim 100. -/
  randNormal : RNG → Nat → Nz × RNG
  /-- generator(noise, training equal True): a batch of synthetic images. -/
  genForward : P → Nz → List Img
  /-- discriminator(batch, training equal True): one score per sample. -/
  discForward : Q → List Img → List S
  /-- tf.keras.losses.binary_crossentropy against tf.ones_like, per sample. -/
  bceOne : S → S
  /-- tf.keras.losses.binary_crossentropy against tf.zeros_like, per sample. -/
  bceZero : S → S
  /-- elementwise tensor addition of two per-sample loss vectors. -/
  addS : S → S → S
  /-- disc_tape.gradient of the discriminator loss in the discriminator's
  trainable variables; the loss is a function of the discriminator
  parameters, the real batch and the synthetic batch. -/
  gradDisc : Q → List Img → List Img → GQ
  /-- discriminator_optimizer.apply_gradients: new parameters and state. -/
  applyDisc : SQ → Q → GQ → Q × SQ
  /-- gen_tape.gradient of the generator loss in the generator's trainable
  variables; the loss is a function of the generator parameters, the
  (already updated) discriminator parameters and the latent batch. -/
  gradGen : P → Q → Nz → GP
  /-- generator_optimizer.apply_gradients: new parameters and state. -/
  applyGen : SP → P → GP → P × SP
  /-- np.random.randint(low, high, size): a list of `size` indices. -/
  randint : RNG → Nat → Nat → Nat → List Nat × RNG

/-- Result of one call of `train_step`: the updated training state, the two
returned per-sample loss vectors, and the advanced RNG state. -/
structure StepResult (P Q SP SQ S RNG : Type) where
  state : GanState P Q SP SQ
  disc_loss : List S
  gen_loss : List S
  rng : RNG
deriving DecidableEq

variable {P Q SP SQ Nz Img S GP GQ RNG : Type}

/-- Embedding of `train_step(real_images, batch_size)` from the notebook,
line by line.  A single latent batch `noise` is drawn; the discriminator is
scored on the real batch and on the synthetic batch; the discriminator
loss is the elementwise sum of the two binary-cross-entropy vectors; one
optimizer update is applied to the discriminator; then the generator
forward pass and the discriminator score are recomputed (with the same
`noise` variable) and one optimizer update is applied to the generator.
Returns `disc_loss, gen_loss` as in the source, plus the state that the
source mutates globally. -/
def train_step (ops : GanOps P Q SP SQ Nz Img S GP GQ RNG)
    (st : GanState P Q SP SQ) (real_images : List Img) (batch_size : Nat)
    (rng : RNG) : StepResult P Q SP SQ S RNG :=
  let nr := ops.randNormal rng batch_size
  let noise := nr.1
  let fake_images := ops.genForward st.genP noise
  let real_output := ops.discForward st.discP real_images
  let fake_output := ops.discForward st.discP fake_images
  let disc_loss_real := real_output.map ops.bceOne
  let disc_loss_fake := fake_output.map ops.bceZero
  let disc_loss := List.zipWith ops.addS disc_loss_real disc_loss_fake
  let du := ops.applyDisc st.discOpt st.discP
    (ops.gradDisc st.discP real_images fake_images)
  let fake_images2 := ops.genForward st.genP noise
  let fake_output2 := ops.discForward du.1 fake_images2
  let gen_loss := fake_output2.map ops.bceOne
  let gu := ops.applyGen st.genOpt st.genP (ops.gradGen st.genP du.1 noise)
  ⟨⟨gu.1, du.1, gu.2, du.2⟩, disc_loss, gen_loss, nr.2⟩

/-- The discriminator-update half of `train_step` (the lines under the
`Train Discriminator` comment), given the latent batch already drawn:
score both batches at the current parameters, form the summed loss, apply
the discriminator optimizer.  Returns the new state and the loss. -/
def discriminator_substep (ops : GanOps P Q SP SQ Nz Img S GP GQ RNG)
    (st : GanState P Q SP SQ) (real_images : List Img) (noise : Nz) :
    GanState P Q SP SQ × List S :=
  let fake_images := ops.genForward st.genP noise
  let real_output := ops.discForward st.discP real_images
  let fake_output := ops.discForward st.discP fake_images
  let disc_loss := List.zipWith ops.addS (real_output.map ops.bceOne)
    (fake_output.map ops.bceZero)
  let du := ops.applyDisc st.discOpt st.discP
    (ops.gradDisc st.discP real_images fake_images)
  (⟨st.genP, du.1, st.genOpt, du.2⟩, disc_loss)

/-- The generator-update half of `train_step` (the lines under the
`Train Generator` comment), given the latent batch: rerun the generator
forward pass, score the result, apply the generator optimizer. -/
def generator_substep (ops : GanOps P Q SP SQ Nz Img S GP GQ RNG)
    (st : GanState P Q SP SQ) (noise : Nz) :
    GanState P Q SP SQ × List S :=
  let fake_images := ops.genForward st.genP noise
  let fake_output := ops.discForward st.discP fake_images
  let gen_loss := fake_output.map ops.bceOne
  let gu := ops.applyGen st.genOpt st.genP
    (ops.gradGen st.genP st.discP noise)
  (⟨gu.1, st.discP, gu.2, st.discOpt⟩, gen_loss)

/-- Modelled from the spec (section 4.3, step 5): a variant of the training
step in which the generator-update sub-step draws a FRESH latent batch
before its generator forward pass, as the spec's words describe.  The
notebook's `train_step` is compared against this definition. -/
def train_step_freshDraw (ops : GanOps P Q SP SQ Nz Img S GP GQ RNG)
    (st : GanState P Q SP SQ) (real_images : List Img) (batch_size : Nat)
    (rng : RNG) : StepResult P Q SP SQ S RNG :=
  let nr := ops.randNormal rng batch_size
  let noise := nr.1
  let fake_images := ops.genForward st.genP noise
  let real_output := ops.discForward st.discP real_images
  let fake_output := ops.discForward st.discP fake_images
  let disc_loss := List.zipWith ops.addS (real_output.map ops.bceOne)
    (fake_output.map ops.bceZero)
  let du := ops.applyDisc st.discOpt st.discP
    (ops.gradDisc st.discP real_images fake_images)
  let nr2 := ops.randNormal nr.2 batch_size
  let noise2 := nr2.1
  let fake_images2 := ops.genForward st.genP noise2
  let fake_output2 := ops.discForward du.1 fake_images2
  let gen_loss := fake_output2.map ops.bceOne
  let gu := ops.applyGen st.genOpt st.genP (ops.gradGen st.genP du.1 noise2)
  ⟨⟨gu.1, du.1, gu.2, du.2⟩, disc_loss, gen_loss, nr2.2⟩

/-- Named intermediate of `train_step`: the discriminator's score vector on
the real batch, computed at the current discriminator parameters. -/
def real_output (ops : GanOps P Q SP SQ Nz Img S GP GQ RNG)
    (st : GanState P Q SP SQ) (real_images : List Img) : List S :=
  ops.discForward st.discP real_images

/-- Named intermediate of `train_step`: the discriminator's score vector on
the synthetic batch generated from `noise` at the current parameters. -/
def fake_output (ops : GanOps P Q SP SQ Nz Img S GP GQ RNG)
    (st : GanState P Q SP SQ) (noise : Nz) : List S :=
  ops.discForward st.discP (ops.genForward st.genP noise)

/-- Named intermediate of `train_step`: per-sample binary cross-entropy of
the real scores against the all-ones target. -/
def disc_loss_real (ops : GanOps P Q SP SQ Nz Img S GP GQ RNG)
    (st : GanState P Q SP SQ) (real_images : List Img) : List S :=
  (real_output ops st real_images).map ops.bceOne

/-- Named intermediate of `train_step`: per-sample binary cross-entropy of
the synthetic scores against the all-zeros target. -/
def disc_loss_fake (ops : GanOps P Q SP SQ Nz Img S GP GQ RNG)
    (st : GanState P Q SP SQ) (noise : Nz) : List S :=
  (fake_output ops st noise).map ops.bceZero

/-- A concrete instantiation of the library primitives on small types,
used to evaluate the control flow on explicit inputs.  The RNG is a
counter; each draw returns the counter value and advances it. -/
def exOps : GanOps ℤ ℤ ℤ ℤ (List ℕ) ℤ ℤ ℤ ℤ ℕ :=
  ⟨fun rng bs => (List.replicate bs rng, rng + 1),
   fun _ nz => nz.map (fun z => (z : ℤ)),
   fun q imgs => imgs.map (fun i => i + q),
   fun s => s,
   fun s => s + 1,
   fun a b => a + b,
   fun _ _ _ => 1,
   fun so q g => (q - g, so + 1),
   fun _ _ nz => (nz.length : ℤ),
   fun sp p g => (p - g, sp + 1),
   fun rng lo hi sz => (List.replicate sz (lo + rng % (hi - lo)), rng + 1)⟩

/-- A concrete initial training state for evaluating the control flow. -/
def exSt : GanState ℤ ℤ ℤ ℤ := ⟨0, 0, 0, 0⟩

/-- A generated sample with explicit height, width, channel nesting, the
notebook's target image shape being 28 by 28 by 1. -/
abbrev Image3 := List (List (List ℚ))

/-- A two-dimensional grayscale slice, as passed to imshow. -/
abbrev Image2 := List (List ℚ)

/-- Embedding of `np.random.randn(n, m)`: an n-by-m matrix of draws read
off an oracle stream `rs` of random values. -/
def randn_matrix (rs : Nat → ℚ) (n m : Nat) : List (List ℚ) :=
  (List.range n).map (fun i => (List.range m).map (fun j => rs (i * m + j)))

/-- Dot product of a weight row with an input vector. -/
def dotQ (w x : List ℚ) : ℚ :=
  (List.zipWith (fun a b => a * b) w x).sum

/-- A Keras `Dense` layer without activation: one affine output per weight
row. -/
def denseQ (W : List (List ℚ)) (b : List ℚ) (x : List ℚ) : List ℚ :=
  List.zipWith (fun row bi => dotQ row x + bi) W b

/-- `LeakyReLU(alpha=0.2)` applied to one coordinate. -/
def leakyReLUQ (x : ℚ) : ℚ :=
  if x < 0 then (1 / 5) * x else x

/-- The generator's final `Reshape((28, 28, 1))` layer: view a length-784
activation vector as a 28-by-28-by-1 image. -/
def reshape_28_28_1 (v : List ℚ) : Image3 :=
  (List.range 28).map (fun i =>
    (List.range 28).map (fun j => [v.getD (28 * i + j) 0]))

/-- Trainable weights of `build_generator`: `Dense(128, input_dim=100)`
and `Dense(784)`. -/
structure GenWeights where
  W1 : List (List ℚ)
  b1 : List ℚ
  W2 : List (List ℚ)
  b2 : List ℚ

/-- Embedding of `generator.predict` for the `build_generator`
architecture: per latent row, `Dense(128)`, `LeakyReLU(0.2)`,
`BatchNormalization` (its learned elementwise transform kept abstract as
`bnA`), `Dense(784)` with `tanh` activation (the transcendental `tanh`
kept abstract as `tanhA`), then `Reshape((28, 28, 1))`. -/
def generator_predict (p : GenWeights) (tanhA bnA : ℚ → ℚ)
    (noise : List (List ℚ)) : List Image3 :=
  noise.map (fun z =>
    reshape_28_28_1
      ((denseQ p.W2 p.b2
        (((denseQ p.W1 p.b1 z).map leakyReLUQ).map bnA)).map tanhA))

/-- The rescaling line `generated_images = 0.5 * generated_images + 0.5`
applied to one image. -/
def rescale_img (img : Image3) : Image3 :=
  img.map (fun row => row.map (fun px => px.map (fun x => 1 / 2 * x + 1 / 2)))

/-- The slice `generated_images[cnt, :, :, 0]` passed to imshow. -/
def channel0 (img : Image3) : Image2 :=
  img.map (fun row => row.map (fun px => px.getD 0 0))

/-- The doubly nested display loop of `generate_and_display_images`,
flattened over the running counter `cnt`: each of `fuel` remaining cells
shows `generated_images[cnt]`; indexing past the end of the generated
batch raises, which the embedding returns as an error. -/
def display_cells (generated_images : List Image3) (cnt fuel : Nat) :
    Except String (List Image2) :=
  match fuel with
  | 0 => Except.ok []
  | Nat.succ f =>
    match generated_images[cnt]? with
    | some img =>
      (display_cells generated_images (cnt + 1) f).map
        (fun rest => channel0 img :: rest)
    | none => Except.error "IndexError"

/-- Embedding of `generate_and_display_images(generator, num_images)`:
draw a `num_images`-by-100 latent batch, run the generator's predict,
rescale the outputs to the unit interval, and fill the hardcoded
4-by-4 subplot grid, i.e. 16 cells with `cnt` running from 0 to 15. -/
def generate_and_display_images (predict : List (List ℚ) → List Image3)
    (rs : Nat → ℚ) (num_images : Nat) : Except String (List Image2) :=
  let noise := randn_matrix rs num_images 100
  let generated_images := (predict noise).map rescale_img
  display_cells generated_images 0 16

/-- Concrete empty generator weights used to evaluate the display
pipeline. -/
def exGenW : GenWeights := ⟨[], [], [], []⟩

/-- Embedding of the batch-selection line of `train_gan`:
`idx = np.random.randint(0, X_train.shape[0], batch_size)`. -/
def select_batch_idx (ops : GanOps P Q SP SQ Nz Img S GP GQ RNG)
    (X_train : List Img) (batch_size : Nat) (rng : RNG) : List Nat × RNG :=
  ops.randint rng 0 X_train.length batch_size

/-- Embedding of `real_images = X_train[idx]`: NumPy fancy indexing of the
dataset by the drawn index list.  `dflt` is the value a (never-reached,
for in-range indices) out-of-bounds access would produce. -/
def gather (X_train : List Img) (dflt : Img) (idx : List Nat) : List Img :=
  idx.map (fun i => X_train.getD i dflt)

/-- Embedding of the `train_gan(epochs, batch_size)` loop body: for each of
`epochs` iterations, draw a random index batch, gather the real images,
and run one training step.  The in-memory dataset `X_train` stands for the
already loaded and rescaled MNIST array (the loading and the elementwise
rescale to the interval from -1 to 1 are library calls done once before
the loop).  The returned list collects the per-step pair of loss vectors
(the loop's reporting every 1000 steps prints their means, a pure
side effect).  The loop has no convergence check: it always recurses down
from `epochs` to zero. -/
def train_gan (ops : GanOps P Q SP SQ Nz Img S GP GQ RNG) (dflt : Img)
    (X_train : List Img) (epochs batch_size : Nat)
    (st : GanState P Q SP SQ) (rng : RNG) :
    List (List S × List S) × GanState P Q SP SQ × RNG :=
  match epochs with
  | 0 => ([], st, rng)
  | Nat.succ e =>
    let ir := select_batch_idx ops X_train batch_size rng
    let real_images := gather X_train dflt ir.1
    let r := train_step ops st real_images batch_size ir.2
    let rest := train_gan ops dflt X_train e batch_size r.state r.rng
    ((r.disc_loss, r.gen_loss) :: rest.1, rest.2.1, rest.2.2)

/-- The logistic sigmoid, the final activation of `build_discriminator`
(`Dense(1, activation='sigmoid')`), over the reals. -/
noncomputable def sigmoid (x : ℝ) : ℝ :=
  1 / (1 + Real.exp (-x))

/-- `LeakyReLU(alpha=0.2)` over the reals. -/
noncomputable def leakyReLUR (x : ℝ) : ℝ :=
  if x < 0 then 0.2 * x else x

/-- Dot product of a weight row with an input vector over the reals. -/
noncomputable def dotR (w x : List ℝ) : ℝ :=
  (List.zipWith (fun a b => a * b) w x).sum

/-- A Keras `Dense` layer over the reals: one affine output per weight
row. -/
noncomputable def denseR (W : List (List ℝ)) (b : List ℝ) (x : List ℝ) :
    List ℝ :=
  List.zipWith (fun row bi => dotR row x + bi) W b

/-- Trainable weights of `build_discriminator`: `Dense(128)` after the
flatten, and the final `Dense(1)`. -/
structure DiscWeights where
  W1 : List (List ℝ)
  b1 : List ℝ
  W2 : List (List ℝ)
  b2 : List ℝ

/-- Embedding of the `build_discriminator` forward pass on one sample:
`Flatten(input_shape=(28, 28, 1))`, `Dense(128)`, `LeakyReLU(0.2)`,
`Dense(1, activation='sigmoid')`. -/
noncomputable def discriminator_forward (p : DiscWeights)
    (img : List (List (List ℝ))) : List ℝ :=
  ((denseR p.W2 p.b2
    ((denseR p.W1 p.b1 img.flatten.flatten).map leakyReLUR)).map sigmoid)

/-- When the generated batch covers all requested cells, the display loop
succeeds and shows exactly the cells `cnt`, `cnt + 1`, ... in order. -/
theorem display_cells_ok (l : List Image3) :
    ∀ (fuel cnt : Nat), cnt + fuel ≤ l.length →
      display_cells l cnt fuel =
        Except.ok ((List.range fuel).map
          (fun k => channel0 (l.getD (cnt + k) []))) := by
  intro fuel
  induction fuel with
  | zero => intro cnt _; simp [display_cells]
  | succ f ih =>
    intro cnt h
    have hc : cnt < l.length := by omega
    have hg : l[cnt]? = some l[cnt] := List.getElem?_eq_getElem hc
    have hih := ih (cnt + 1) (by omega)
    have harith : ∀ k, cnt + 1 + k = cnt + (k + 1) := fun k => by omega
    simp only [display_cells, hg, hih, Except.map, List.range_succ_eq_map,
      List.map_cons, List.map_map]
    refine congrArg Except.ok (congrArg₂ List.cons ?_ ?_)
    · rw [Nat.add_zero, List.getD_eq_getElem l [] hc]
    · refine List.map_congr_left (fun k _ => ?_)
      simp [Function.comp, harith]

/-- When the generated batch is shorter than the cells still to fill, the
display loop hits an out-of-bounds index and fails. -/
theorem display_cells_oob (l : List Image3) :
    ∀ (fuel cnt : Nat), 0 < fuel → l.length < cnt + fuel →
      display_cells l cnt fuel = Except.error "IndexError" := by
  intro fuel
  induction fuel with
  | zero => intro cnt h0 _; exact absurd h0 (lt_irrefl 0)
  | succ f ih =>
    intro cnt _ hlen
    by_cases hc : cnt < l.length
    · have hg : l[cnt]? = some l[cnt] := List.getElem?_eq_getElem hc
      have hf : 0 < f := by omega
      have hih := ih (cnt + 1) hf (by omega)
      simp [display_cells, hg, hih, Except.map]
    · have hg : l[cnt]? = none := by
        rw [List.getElem?_eq_none_iff]
        omega
      simp [display_cells, hg]

/-- The training loop produces exactly one loss pair per configured step,
whatever the state and RNG it starts from. -/
theorem train_gan_length (ops : GanOps P Q SP SQ Nz Img S GP GQ RNG)
    (dflt : Img) (X_train : List Img) (batch_size : Nat) :
    ∀ (epochs : Nat) (st : GanState P Q SP SQ) (rng : RNG),
      ((train_gan ops dflt X_train epochs batch_size st rng).1).length =
        epochs := by
  intro epochs
  induction epochs with
  | zero => intro st rng; rfl
  | succ e ih => intro st rng; simpa [train_gan] using ih _ _

/-- The logistic sigmoid takes values in the closed unit interval. -/
theorem sigmoid_mem_unit (x : ℝ) : 0 ≤ sigmoid x ∧ sigmoid x ≤ 1 := by
  have hpos : (0 : ℝ) < 1 + Real.exp (-x) := by positivity
  constructor
  · exact le_of_lt (div_pos one_pos hpos)
  · rw [sigmoid, div_le_one hpos]
    exact le_add_of_nonneg_right (Real.exp_pos (-x)).le

/-- Claim C6.  For every weight assignment and every (finite, real-valued)
input of the target data shape, each scalar the discriminator outputs lies
in the closed interval from 0 to 1, because the final layer applies the
sigmoid activation. -/
theorem C6_disc_output_unit_interval (p : DiscWeights)
    (img : List (List (List ℝ))) (y : ℝ)
    (hy : y ∈ discriminator_forward p img) : 0 ≤ y ∧ y ≤ 1 := by
  simp only [discriminator_forward, List.mem_map] at hy
  obtain ⟨x, _, hxy⟩ := hy
  rw [← hxy]
  exact sigmoid_mem_unit x

/-- Claim C6, witness: a concrete output of the discriminator at explicit
weights and an explicit input is bounded by 0 and 1. -/
theorem C6_witness :
    sigmoid (dotR [] [] + 0) ∈
      discriminator_forward ⟨[], [], [[]], [0]⟩ [] ∧
    0 ≤ sigmoid (dotR [] [] + 0) ∧ sigmoid (dotR [] [] + 0) ≤ 1 := by
  have hm : sigmoid (dotR [] [] + 0) ∈
      discriminator_forward ⟨[], [], [[]], [0]⟩ [] := by
    show sigmoid (dotR [] [] + 0) ∈ [sigmoid (dotR [] [] + 0)]
    exact List.mem_singleton_self _
  exact ⟨hm, C6_disc_output_unit_interval ⟨[], [], [[]], [0]⟩ [] _ hm⟩

/-- Claim C1, counterexample.  The claim says the generator-update
sub-step uses a fresh latent draw, i.e. that `train_step` behaves like the
spec-modelled `train_step_freshDraw`.  At a concrete instantiation the two
differ: the returned generator loss differs (the code reuses the latent
batch of step 1) and the RNG advances once, not twice. -/
theorem C1_counterexample :
    (train_step exOps exSt [5] 1 0).gen_loss ≠
      (train_step_freshDraw exOps exSt [5] 1 0).gen_loss ∧
    (train_step exOps exSt [5] 1 0).rng ≠
      (train_step_freshDraw exOps exSt [5] 1 0).rng := by
  decide

/-- Claim C1, amended.  In a single training step the generator-update
sub-step recomputes the synthetic batch by a fresh generator forward pass
on the SAME latent batch drawn in step 1 (exactly one latent draw happens
per step, so the returned RNG is the one advanced by that single draw),
and the discriminator — with its already-updated parameters — is scored on
that recomputed batch. -/
theorem C1_amended_reuses_latent (ops : GanOps P Q SP SQ Nz Img S GP GQ RNG)
    (st : GanState P Q SP SQ) (real_images : List Img) (batch_size : Nat)
    (rng : RNG) :
    (train_step ops st real_images batch_size rng).rng =
      (ops.randNormal rng batch_size).2 ∧
    (train_step ops st real_images batch_size rng).gen_loss =
      (ops.discForward
        (ops.applyDisc st.discOpt st.discP
          (ops.gradDisc st.discP real_images
            (ops.genForward st.genP (ops.randNormal rng batch_size).1))).1
        (ops.genForward st.genP (ops.randNormal rng batch_size).1)).map
        ops.bceOne :=
  ⟨rfl, rfl⟩

/-- Claim C2.  The discriminator-update sub-step leaves the generator's
parameters and optimizer state unchanged; the generator-update sub-step
leaves the discriminator's parameters and optimizer state unchanged; and
the full training step is exactly the composition of the two sub-steps on
the single drawn latent batch, so each optimizer update touches only its
own network's parameters. -/
theorem C2_optimizer_frame (ops : GanOps P Q SP SQ Nz Img S GP GQ RNG)
    (st : GanState P Q SP SQ) (real_images : List Img) (noise : Nz)
    (batch_size : Nat) (rng : RNG) :
    (discriminator_substep ops st real_images noise).1.genP = st.genP ∧
    (discriminator_substep ops st real_images noise).1.genOpt = st.genOpt ∧
    (generator_substep ops st noise).1.discP = st.discP ∧
    (generator_substep ops st noise).1.discOpt = st.discOpt ∧
    (train_step ops st real_images batch_size rng).state =
      (generator_substep ops
        (discriminator_substep ops st real_images
          (ops.randNormal rng batch_size).1).1
        (ops.randNormal rng batch_size).1).1 :=
  ⟨rfl, rfl, rfl, rfl, rfl⟩

/-- Claim C3.  Both discriminator scores entering the discriminator loss —
on the real batch and on the synthetic batch — are computed at the
pre-update discriminator parameters `st.discP`, and the synthetic batch is
produced by the pre-update generator parameters `st.genP`: no parameter
update of either network precedes these evaluations. -/
theorem C3_scores_pre_update (ops : GanOps P Q SP SQ Nz Img S GP GQ RNG)
    (st : GanState P Q SP SQ) (real_images : List Img) (batch_size : Nat)
    (rng : RNG) :
    (train_step ops st real_images batch_size rng).disc_loss =
      List.zipWith ops.addS
        ((ops.discForward st.discP real_images).map ops.bceOne)
        ((ops.discForward st.discP
          (ops.genForward st.genP (ops.randNormal rng batch_size).1)).map
          ops.bceZero) :=
  rfl

/-- Claim C5.  The discriminator loss returned by the training step is the
elementwise sum of the two binary-cross-entropy terms: the real batch's
scores against the all-ones target plus the synthetic batch's scores
against the all-zeros target. -/
theorem C5_disc_loss_sum (ops : GanOps P Q SP SQ Nz Img S GP GQ RNG)
    (st : GanState P Q SP SQ) (real_images : List Img) (batch_size : Nat)
    (rng : RNG) :
    (train_step ops st real_images batch_size rng).disc_loss =
      List.zipWith ops.addS (disc_loss_real ops st real_images)
        (disc_loss_fake ops st (ops.randNormal rng batch_size).1) :=
  rfl

/-- Claim C4, counterexample.  With a batch of two real samples the
training step returns loss vectors of length two — one entry per sample —
not scalar values; the mean is taken only at the reporting site in
`train_gan`. -/
theorem C4_counterexample :
    (train_step exOps exSt [5, 7] 2 0).disc_loss.length ≠ 1 ∧
    (train_step exOps exSt [5, 7] 2 0).gen_loss.length ≠ 1 := by
  decide

/-- Claim C4, amended.  Every call of the training step returns the two
losses as per-sample vectors with one entry per sample of the real batch
(given the library contracts that the discriminator emits one score per
input sample and that the generator emits one synthetic sample per latent
row of the drawn batch); the driver reduces them with a mean only for
reporting. -/
theorem C4_amended_loss_vectors (ops : GanOps P Q SP SQ Nz Img S GP GQ RNG)
    (st : GanState P Q SP SQ) (real_images : List Img) (batch_size : Nat)
    (rng : RNG)
    (hd : ∀ q b, (ops.discForward q b).length = b.length)
    (hg : (ops.genForward st.genP (ops.randNormal rng batch_size).1).length =
      real_images.length) :
    (train_step ops st real_images batch_size rng).disc_loss.length =
      real_images.length ∧
    (train_step ops st real_images batch_size rng).gen_loss.length =
      real_images.length := by
  refine ⟨?_, ?_⟩ <;>
    simp [train_step, List.length_zipWith, hd, hg]

/-- Claim C4, witness: the amended statement evaluated on a concrete
one-sample batch. -/
theorem C4_witness :
    (train_step exOps exSt [5] 1 0).disc_loss.length = 1 ∧
    (train_step exOps exSt [5] 1 0).gen_loss.length = 1 :=
  C4_amended_loss_vectors exOps exSt [5] 1 0
    (fun q b => by simp [exOps]) (by decide)

/-- Claim C7.  With identical initial generator, discriminator and
optimizer states and an identical random seed, two runs of N training
steps produce identical sequences of returned loss pairs.  All randomness
of the loop (latent sampling and batch selection) flows through the
explicit RNG state, so the trajectory is a function of the initial state
and seed. -/
theorem C7_determinism (ops : GanOps P Q SP SQ Nz Img S GP GQ RNG)
    (dflt : Img) (X_train : List Img) (epochs batch_size : Nat)
    (st1 st2 : GanState P Q SP SQ) (rng1 rng2 : RNG)
    (hst : st1 = st2) (hrng : rng1 = rng2) :
    (train_gan ops dflt X_train epochs batch_size st1 rng1).1 =
      (train_gan ops dflt X_train epochs batch_size st2 rng2).1 := by
  subst hst
  subst hrng
  rfl

/-- Claim C7, witness: two identically seeded two-step runs on a concrete
instantiation yield equal loss trajectories. -/
theorem C7_witness :
    (train_gan exOps 0 [3, 4] 2 1 exSt 0).1 =
      (train_gan exOps 0 [3, 4] 2 1 exSt 0).1 :=
  C7_determinism exOps 0 [3, 4] 2 1 exSt exSt 0 0 rfl rfl

/-- Claim C9.  The training-loop driver performs exactly `epochs`
iterations — one loss pair per configured step, with no early exit — and
each iteration's real batch is selected by drawing `batch_size` indices
(with replacement, each draw independent of the others within the
library's contract for np.random.randint) into the fixed in-memory
dataset: the drawn index list has length `batch_size`, every index is
below the dataset size, and every gathered sample is an element of the
dataset. -/
theorem C9_driver (ops : GanOps P Q SP SQ Nz Img S GP GQ RNG) (dflt : Img)
    (X_train : List Img) (epochs batch_size : Nat)
    (st : GanState P Q SP SQ) (rng : RNG)
    (hsz : ∀ r, ((ops.randint r 0 X_train.length batch_size).1).length =
      batch_size)
    (hlt : ∀ r, ∀ i ∈ (ops.randint r 0 X_train.length batch_size).1,
      i < X_train.length) :
    ((train_gan ops dflt X_train epochs batch_size st rng).1).length =
      epochs ∧
    ((select_batch_idx ops X_train batch_size rng).1).length = batch_size ∧
    (∀ i ∈ (select_batch_idx ops X_train batch_size rng).1,
      i < X_train.length) ∧
    (gather X_train dflt
      (select_batch_idx ops X_train batch_size rng).1).length =
      batch_size ∧
    (∀ img ∈ gather X_train dflt
      (select_batch_idx ops X_train batch_size rng).1, img ∈ X_train) := by
  refine ⟨train_gan_length ops dflt X_train batch_size epochs st rng,
    hsz rng, hlt rng, ?_, ?_⟩
  · simpa [gather] using hsz rng
  · intro img himg
    simp only [gather, List.mem_map] at himg
    obtain ⟨i, hi, hieq⟩ := himg
    have hlen : i < X_train.length := hlt rng i hi
    rw [← hieq, List.getD_eq_getElem X_train dflt hlen]
    exact List.getElem_mem hlen

/-- Claim C9, witness: a concrete three-step run over a two-element
dataset with batch size two performs exactly three iterations and selects
in-range batches. -/
theorem C9_witness :
    ((train_gan exOps 0 [3, 4] 3 2 exSt 0).1).length = 3 ∧
    ((select_batch_idx exOps [3, 4] 2 0).1).length = 2 ∧
    (∀ i ∈ (select_batch_idx exOps [3, 4] 2 0).1,
      i < ([3, 4] : List ℤ).length) ∧
    (gather [3, 4] 0 (select_batch_idx exOps [3, 4] 2 0).1).length = 2 ∧
    (∀ img ∈ gather [3, 4] 0 (select_batch_idx exOps [3, 4] 2 0).1,
      img ∈ ([3, 4] : List ℤ)) :=
  C9_driver exOps 0 [3, 4] 3 2 exSt 0
    (fun r => by simp [exOps])
    (fun r i hi => by
      have h : i = r % 2 := by simpa [exOps] using hi
      have h2 : r % 2 < 2 := Nat.mod_lt r (by decide)
      simpa [h] using h2)

/-- Claim C8.  Calling `generate_and_display_images` with sixteen
requested images draws a latent batch of shape (16, 100); the generator
produces exactly sixteen samples, each of the target image shape
28 by 28 by 1; and the display succeeds, rendering the sixteen rescaled
channel-0 slices in grid order. -/
theorem C8_generate_display_16 (p : GenWeights) (tanhA bnA : ℚ → ℚ)
    (rs : Nat → ℚ) :
    (randn_matrix rs 16 100).length = 16 ∧
    (∀ row ∈ randn_matrix rs 16 100, row.length = 100) ∧
    (generator_predict p tanhA bnA (randn_matrix rs 16 100)).length = 16 ∧
    (∀ img ∈ generator_predict p tanhA bnA (randn_matrix rs 16 100),
      img.length = 28 ∧
      ∀ row ∈ img, row.length = 28 ∧ ∀ px ∈ row, px.length = 1) ∧
    generate_and_display_images (generator_predict p tanhA bnA) rs 16 =
      Except.ok ((List.range 16).map (fun cnt =>
        channel0 (((generator_predict p tanhA bnA
          (randn_matrix rs 16 100)).map rescale_img).getD cnt []))) := by
  refine ⟨by simp [randn_matrix], ?_,
    by simp [generator_predict, randn_matrix], ?_, ?_⟩
  · intro row hrow
    simp only [randn_matrix, List.mem_map] at hrow
    obtain ⟨i, _, hieq⟩ := hrow
    simp [← hieq]
  · intro img himg
    simp only [generator_predict, List.mem_map] at himg
    obtain ⟨z, _, hzeq⟩ := himg
    refine ⟨by simp [← hzeq, reshape_28_28_1], ?_⟩
    intro row hrow
    rw [← hzeq] at hrow
    simp only [reshape_28_28_1, List.mem_map] at hrow
    obtain ⟨i, _, hieq⟩ := hrow
    refine ⟨by simp [← hieq], ?_⟩
    intro px hpx
    rw [← hieq] at hpx
    simp only [List.mem_map] at hpx
    obtain ⟨j, _, hjeq⟩ := hpx
    simp [← hjeq]
  · have hlen : ((generator_predict p tanhA bnA
        (randn_matrix rs 16 100)).map rescale_img).length = 16 := by
      simp [generator_predict, randn_matrix]
    have := display_cells_ok
      ((generator_predict p tanhA bnA
        (randn_matrix rs 16 100)).map rescale_img) 16 0 (by rw [hlen])
    simpa [generate_and_display_images] using this

/-- Claim C8, witness: the display scenario evaluated at explicit
generator weights and an explicit noise stream. -/
theorem C8_witness :
    (randn_matrix (fun _ => 0) 16 100).length = 16 ∧
    (∀ row ∈ randn_matrix (fun _ => 0) 16 100, row.length = 100) ∧
    (generator_predict exGenW id id
      (randn_matrix (fun _ => 0) 16 100)).length = 16 ∧
    (∀ img ∈ generator_predict exGenW id id
        (randn_matrix (fun _ => 0) 16 100),
      img.length = 28 ∧
      ∀ row ∈ img, row.length = 28 ∧ ∀ px ∈ row, px.length = 1) ∧
    generate_and_display_images (generator_predict exGenW id id)
        (fun _ => 0) 16 =
      Except.ok ((List.range 16).map (fun cnt =>
        channel0 (((generator_predict exGenW id id
          (randn_matrix (fun _ => 0) 16 100)).map
            rescale_img).getD cnt []))) :=
  C8_generate_display_16 exGenW id id (fun _ => 0)

/-- Claim C10.  The display grid is a hardcoded 4-by-4 arrangement of
sixteen cells regardless of `num_images`: whenever at least sixteen
samples are generated, the call succeeds and shows exactly the first
sixteen of them; whenever fewer than sixteen are generated, the display
loop indexes the generated batch out of bounds and the call fails. -/
theorem C10_grid_hardcoded_16 (p : GenWeights) (tanhA bnA : ℚ → ℚ)
    (rs : Nat → ℚ) (num_images : Nat) :
    (16 ≤ num_images →
      generate_and_display_images (generator_predict p tanhA bnA) rs
          num_images =
        Except.ok ((List.range 16).map (fun cnt =>
          channel0 (((generator_predict p tanhA bnA
            (randn_matrix rs num_images 100)).map
              rescale_img).getD cnt [])))) ∧
    (num_images < 16 →
      generate_and_display_images (generator_predict p tanhA bnA) rs
          num_images =
        Except.error "IndexError") := by
  have hlen : ((generator_predict p tanhA bnA
      (randn_matrix rs num_images 100)).map rescale_img).length =
      num_images := by
    simp [generator_predict, randn_matrix]
  constructor
  · intro h
    have := display_cells_ok
      ((generator_predict p tanhA bnA
        (randn_matrix rs num_images 100)).map rescale_img) 16 0
      (by omega)
    simpa [generate_and_display_images] using this
  · intro h
    have := display_cells_oob
      ((generator_predict p tanhA bnA
        (randn_matrix rs num_images 100)).map rescale_img) 16 0
      (by decide) (by omega)
    simpa [generate_and_display_images] using this

/-- Claim C10, witness: with seventeen requested images the call succeeds
on the first sixteen generated samples; with fifteen it fails. -/
theorem C10_witness :
    generate_and_display_images (generator_predict exGenW id id)
        (fun _ => 0) 17 =
      Except.ok ((List.range 16).map (fun cnt =>
        channel0 (((generator_predict exGenW id id
          (randn_matrix (fun _ => 0) 17 100)).map
            rescale_img).getD cnt []))) ∧
    generate_and_display_images (generator_predict exGenW id id)
        (fun _ => 0) 15 =
      Except.error "IndexError" :=
  ⟨(C10_grid_hardcoded_16 exGenW id id (fun _ => 0) 17).1 (by decide),
   (C10_grid_hardcoded_16 exGenW id id (fun _ => 0) 15).2 (by decide)⟩

end GanNotebook
